import Mathlib

/-!
Verification of the session lifecycle wrapper, the element locator, the
login-completion handler and the result sanitizer of the xhs_mcp repository,
through a shallow embedding of the relevant Python code.
-/

/-- Python-level exception values arising in the embedded fragment. -/
inductive PyErr where
  | valueErr (msg : String)
  | runtimeErr (msg : String)
  | osError (site : String)
  deriving DecidableEq

/-- Events a handler can emit while the session is open (the only effect the
embedded handlers perform besides returning is persisting the session blob). -/
inductive HEv where
  | save (path : String) (blob : String)
  deriving DecidableEq

/-- Observable steps of one `_run_with_page_sync` invocation, in order. -/
inductive Ev where
  | acquirePW
  | acquireBrowser
  | acquireContext
  | tracingStart
  | newPage
  | consoleAttach
  | handlerRun
  | mkdirDebug
  | writeFile (name : String)
  | screenshotAttempt
  | tracingStop
  | releaseContext
  | releaseBrowser
  | releasePW
  | handlerEv (h : HEv)
  deriving DecidableEq

/-- Per-invocation configuration of `_run_with_page_sync` after resolution:
the optional diagnostics directory, the trace flag, and the resolved cookies
file path. -/
structure Cfg where
  debugDir : Option String
  trace : Bool
  cookiesFile : String
  deriving DecidableEq

/-- Fault model for one run: which teardown primitives raise an exception on
this particular invocation (filesystem writes, screenshot capture, tracing
stop, resource closing). -/
structure Env where
  mkdirFails : Bool
  domWriteFails : Bool
  screenshotFails : Bool
  errNoteWriteFails : Bool
  consoleWriteFails : Bool
  tracingStopFails : Bool
  ctxCloseFails : Bool
  browserCloseFails : Bool
  pwCloseFails : Bool
  deriving DecidableEq

/-- The diagnostics part of the `finally` block of `_run_with_page_sync`
(mcp_server.py lines 127-141), run only when a debug directory is configured:
mkdir, write `dom.html`, attempt the screenshot (its failure alone is caught,
writing `screenshot-error.log` instead of `page.png`), write `console.log`,
then stop tracing when `trace` is set.  The steps are sequential and abort at
the first uncaught raise, returning that exception. -/
def teardownDiag (trace : Bool) (env : Env) : Option PyErr × List Ev :=
  if env.mkdirFails then (some (.osError "mkdir"), [.mkdirDebug])
  else
    let evs1 := [Ev.mkdirDebug, Ev.writeFile "dom.html"]
    if env.domWriteFails then (some (.osError "dom.html"), evs1)
    else
      let shot : Option PyErr × List Ev :=
        if env.screenshotFails then
          if env.errNoteWriteFails then
            (some (.osError "screenshot-error.log"),
              evs1 ++ [Ev.screenshotAttempt, Ev.writeFile "screenshot-error.log"])
          else
            (none, evs1 ++ [Ev.screenshotAttempt, Ev.writeFile "screenshot-error.log"])
        else (none, evs1 ++ [Ev.screenshotAttempt, Ev.writeFile "page.png"])
      match shot with
      | (some e, evs2) => (some e, evs2)
      | (none, evs2) =>
        let evs3 := evs2 ++ [Ev.writeFile "console.log"]
        if env.consoleWriteFails then (some (.osError "console.log"), evs3)
        else if trace then
          if env.tracingStopFails then (some (.osError "tracing.stop"), evs3 ++ [Ev.tracingStop])
          else (none, evs3 ++ [Ev.tracingStop])
        else (none, evs3)

/-- Events between context acquisition and the release steps: tracing start
(when trace and a debug dir are both set), page creation, console collector
attachment (when a debug dir is set), the handler run with its own events,
then the diagnostics part of the `finally` block. -/
def sessionMidEvents (cfg : Cfg) (env : Env) (handlerEvs : List HEv) : List Ev :=
  (if cfg.trace && cfg.debugDir.isSome then [Ev.tracingStart] else []) ++
  [Ev.newPage] ++
  (if cfg.debugDir.isSome then [Ev.consoleAttach] else []) ++
  [Ev.handlerRun] ++ handlerEvs.map Ev.handlerEv ++
  (if cfg.debugDir.isSome then (teardownDiag cfg.trace env).2 else [])

/-- The exception escaping the `finally` block, if any. -/
def teardownErr (cfg : Cfg) (env : Env) : Option PyErr :=
  if cfg.debugDir.isSome then (teardownDiag cfg.trace env).1 else none

/-- Shallow embedding of `_run_with_page_sync` (mcp_server.py lines 98-141).
The handler runs with the page open; the `finally` block then captures
diagnostics, and the nested `with` blocks release context, browser and
playwright driver in that order on every path.  Python semantics encoded
here: an exception raised in `finally` or by a later `__exit__` replaces the
exception in flight, and every `__exit__` of the nested `with` statements is
still executed, innermost first. -/
def run_with_page_sync {α : Type} (cfg : Cfg) (env : Env)
    (handlerOutcome : Except PyErr α) (handlerEvs : List HEv) :
    Except PyErr α × List Ev :=
  let ctxErr : Option PyErr :=
    if env.ctxCloseFails then some (.osError "context.close") else none
  let browserErr : Option PyErr :=
    if env.browserCloseFails then some (.osError "browser.close") else none
  let pwErr : Option PyErr :=
    if env.pwCloseFails then some (.osError "playwright.stop") else none
  let finalErr : Option PyErr :=
    match pwErr with
    | some e => some e
    | none =>
      match browserErr with
      | some e => some e
      | none =>
        match ctxErr with
        | some e => some e
        | none => teardownErr cfg env
  (match finalErr with
   | some e => .error e
   | none => handlerOutcome,
   Ev.acquirePW :: Ev.acquireBrowser :: Ev.acquireContext ::
     (sessionMidEvents cfg env handlerEvs ++
       [Ev.releaseContext, Ev.releaseBrowser, Ev.releasePW]))

/-- Event `a` occurs, and event `b` occurs somewhere after it. -/
def orderedOcc (a b : Ev) (evs : List Ev) : Prop :=
  ∃ l1 l2 l3, evs = l1 ++ a :: (l2 ++ b :: l3)

/-- Shallow embedding of the `publish_image` tool (mcp_server.py lines
266-307): an empty `image_paths` raises `ValueError` before anything else
happens; otherwise the invocation proceeds through the session wrapper with
the publish handler (whose outcome is `ho`; it emits no save events). -/
def publish_image (imagePaths : List String) (cfg : Cfg) (env : Env)
    (ho : Except PyErr String) : Except PyErr String × List Ev :=
  if imagePaths.isEmpty then
    (.error (.valueErr "image_paths must contain at least one file"), [])
  else run_with_page_sync cfg env ho []

/-- Modelled from the spec: `wait_for_login` lives in src/xhs_mcp/xhs/login.py
which is not among the provided sources.  Per spec section 4.4 the poll loop
re-checks the page login indicator once per tick (fixed poll interval) and
succeeds the first time the indicator reports authenticated before the
deadline; `indicator t` is the reading at poll tick `t`, and the deadline
allows ticks `t` through `t + fuel`. -/
def waitForLoginAux (indicator : Nat → Bool) : Nat → Nat → Bool
  | t, 0 => indicator t
  | t, fuel + 1 => indicator t || waitForLoginAux indicator (t + 1) fuel

/-- Modelled from the spec: polling starts at tick 0 and may run through tick
`maxTicks` (the deadline). -/
def wait_for_login (indicator : Nat → Bool) (maxTicks : Nat) : Bool :=
  waitForLoginAux indicator 0 maxTicks

theorem waitForLoginAux_eq_true_iff (indicator : Nat → Bool) (t fuel : Nat) :
    waitForLoginAux indicator t fuel = true ↔
      ∃ k, k ≤ fuel ∧ indicator (t + k) = true := by
  induction fuel generalizing t with
  | zero =>
    constructor
    · intro h
      exact ⟨0, Nat.le_refl 0, by simpa using h⟩
    · rintro ⟨k, hk, hind⟩
      have hk0 : k = 0 := Nat.le_zero.mp hk
      subst hk0
      simpa [waitForLoginAux] using hind
  | succ n ih =>
    constructor
    · intro h
      rcases Bool.or_eq_true_iff.mp (by simpa [waitForLoginAux] using h) with h0 | hrest
      · exact ⟨0, Nat.zero_le _, by simpa using h0⟩
      · obtain ⟨k, hk, hind⟩ := (ih (t + 1)).mp hrest
        exact ⟨k + 1, Nat.succ_le_succ hk, by simpa [Nat.add_assoc, Nat.add_comm 1 k] using hind⟩
    · rintro ⟨k, hk, hind⟩
      cases k with
      | zero =>
        simp [waitForLoginAux]
        left
        simpa using hind
      | succ m =>
        simp [waitForLoginAux]
        right
        exact (ih (t + 1)).mpr ⟨m, Nat.le_of_succ_le_succ hk,
          by simpa [Nat.add_assoc, Nat.add_comm 1 m] using hind⟩

/-- Shallow embedding of the `wait_for_login_complete` handler (mcp_server.py
lines 658-669): on poll success the full session state is saved to the
resolved cookie file and the handler returns; on timeout it raises
`RuntimeError("Login timed out.")` without saving. -/
def login_handler (indicator : Nat → Bool) (maxTicks : Nat)
    (cookiesFile blob : String) : Except PyErr String × List HEv :=
  if wait_for_login indicator maxTicks then
    (.ok "logged_in", [.save cookiesFile blob])
  else
    (.error (.runtimeErr "Login timed out."), [])

/-- Concrete configuration with a diagnostics directory and tracing. -/
def cfgDbg : Cfg := ⟨some "dbg", true, "cookies.json"⟩

/-- Fault model where only the dom.html write raises. -/
def envDomFail : Env := ⟨false, true, false, false, false, false, false, false, false⟩

/-- Fault model where only the screenshot capture raises. -/
def envShotFail : Env := ⟨false, false, true, false, false, false, false, false, false⟩

/-- C1 counterexample: with a diagnostics directory configured, when the
handler raises `RuntimeError("boom")` and the `dom.html` write raises, the
invocation fails with the dom-write error, not the handler's error — the
teardown failure replaces the handler's outcome, refuting the claim that no
diagnostics-capture failure ever does. -/
theorem c1_counterexample :
    (run_with_page_sync cfgDbg envDomFail
        (Except.error (PyErr.runtimeErr "boom") : Except PyErr Unit) []).1 =
      Except.error (PyErr.osError "dom.html") ∧
    PyErr.osError "dom.html" ≠ PyErr.runtimeErr "boom" :=
  ⟨rfl, fun h => PyErr.noConfusion h⟩

/-- C1 (amended): the handler's error is the invocation's outcome provided
every teardown step other than the screenshot capture succeeds; a screenshot
failure alone never replaces it — the error note is written instead — and in
that scenario the diagnostics directory still receives `dom.html`,
`screenshot-error.log` and `console.log`. -/
theorem c1_amended_handler_error_preserved (cfg : Cfg) (env : Env) (e : PyErr)
    (hevs : List HEv)
    (h1 : env.mkdirFails = false) (h2 : env.domWriteFails = false)
    (h3 : env.errNoteWriteFails = false) (h4 : env.consoleWriteFails = false)
    (h5 : env.tracingStopFails = false) (h6 : env.ctxCloseFails = false)
    (h7 : env.browserCloseFails = false) (h8 : env.pwCloseFails = false) :
    (run_with_page_sync cfg env (Except.error e : Except PyErr Unit) hevs).1 =
      Except.error e ∧
    (cfg.debugDir.isSome = true → env.screenshotFails = true →
      Ev.writeFile "dom.html" ∈
        (run_with_page_sync cfg env (Except.error e : Except PyErr Unit) hevs).2 ∧
      Ev.writeFile "screenshot-error.log" ∈
        (run_with_page_sync cfg env (Except.error e : Except PyErr Unit) hevs).2 ∧
      Ev.writeFile "console.log" ∈
        (run_with_page_sync cfg env (Except.error e : Except PyErr Unit) hevs).2) := by
  obtain ⟨m, dw, sf, en, cw, ts, cc, bc, pc⟩ := env
  simp only at h1 h2 h3 h4 h5 h6 h7 h8
  subst h1; subst h2; subst h3; subst h4; subst h5; subst h6; subst h7; subst h8
  obtain ⟨dbg, tr, ck⟩ := cfg
  constructor
  · cases sf <;> cases dbg <;> cases tr <;>
      simp [run_with_page_sync, teardownErr, teardownDiag]
  · intro hdbg hsf
    cases dbg with
    | none => simp at hdbg
    | some d =>
      subst hsf
      cases tr <;>
        simp [run_with_page_sync, sessionMidEvents, teardownDiag]

/-- C1 witness: concrete run where the handler fails with
`RuntimeError("boom")`, the screenshot capture fails, and everything else
succeeds — the invocation still fails with the handler's error and the three
diagnostic files are written. -/
theorem c1_witness :
    (run_with_page_sync cfgDbg envShotFail
        (Except.error (PyErr.runtimeErr "boom") : Except PyErr Unit) []).1 =
      Except.error (PyErr.runtimeErr "boom") ∧
    Ev.writeFile "dom.html" ∈
      (run_with_page_sync cfgDbg envShotFail
        (Except.error (PyErr.runtimeErr "boom") : Except PyErr Unit) []).2 ∧
    Ev.writeFile "screenshot-error.log" ∈
      (run_with_page_sync cfgDbg envShotFail
        (Except.error (PyErr.runtimeErr "boom") : Except PyErr Unit) []).2 ∧
    Ev.writeFile "console.log" ∈
      (run_with_page_sync cfgDbg envShotFail
        (Except.error (PyErr.runtimeErr "boom") : Except PyErr Unit) []).2 :=
  ⟨(c1_amended_handler_error_preserved cfgDbg envShotFail (PyErr.runtimeErr "boom") []
      rfl rfl rfl rfl rfl rfl rfl rfl).1,
   (c1_amended_handler_error_preserved cfgDbg envShotFail (PyErr.runtimeErr "boom") []
      rfl rfl rfl rfl rfl rfl rfl rfl).2 rfl rfl⟩

/-- C2: on every invocation of the session wrapper — whatever the handler's
outcome and whatever teardown steps fail — the browser is acquired before the
context, and the context is released before the browser, so the release order
is the exact reverse of the acquisition order and the browser is always
released. -/
theorem c2_release_reverse_order {α : Type} (cfg : Cfg) (env : Env)
    (ho : Except PyErr α) (hevs : List HEv) :
    orderedOcc Ev.acquireBrowser Ev.acquireContext
      (run_with_page_sync cfg env ho hevs).2 ∧
    orderedOcc Ev.releaseContext Ev.releaseBrowser
      (run_with_page_sync cfg env ho hevs).2 := by
  constructor
  · refine ⟨[Ev.acquirePW], [],
      sessionMidEvents cfg env hevs ++
        [Ev.releaseContext, Ev.releaseBrowser, Ev.releasePW], ?_⟩
    simp [run_with_page_sync]
  · refine ⟨[Ev.acquirePW, Ev.acquireBrowser, Ev.acquireContext] ++
      sessionMidEvents cfg env hevs, [], [Ev.releasePW], ?_⟩
    simp [run_with_page_sync]

/-- C3: in the `wait_for_login_complete` handler, if the login indicator
reports success at some tick before the deadline then the handler succeeds
and saves the session state exactly once, to the resolved cookies path; if
the indicator never reports success before the deadline, no save occurs and
the handler fails with the login-timeout error. -/
theorem c3_login_save_exactly_once (indicator : Nat → Bool) (maxTicks : Nat)
    (cookiesFile blob : String) :
    ((∃ t, t ≤ maxTicks ∧ indicator t = true) →
      (login_handler indicator maxTicks cookiesFile blob).1 = Except.ok "logged_in" ∧
      (login_handler indicator maxTicks cookiesFile blob).2 = [HEv.save cookiesFile blob]) ∧
    ((∀ t, t ≤ maxTicks → indicator t = false) →
      (login_handler indicator maxTicks cookiesFile blob).1 =
        Except.error (PyErr.runtimeErr "Login timed out.") ∧
      (login_handler indicator maxTicks cookiesFile blob).2 = []) := by
  constructor
  · rintro ⟨t, ht, hind⟩
    have hw : wait_for_login indicator maxTicks = true := by
      unfold wait_for_login
      exact (waitForLoginAux_eq_true_iff indicator 0 maxTicks).mpr
        ⟨t, ht, by simpa using hind⟩
    simp [login_handler, hw]
  · intro hall
    have hw : wait_for_login indicator maxTicks = false := by
      cases hcase : wait_for_login indicator maxTicks with
      | false => rfl
      | true =>
        obtain ⟨k, hk, hind⟩ :=
          (waitForLoginAux_eq_true_iff indicator 0 maxTicks).mp hcase
        have := hall k hk
        simp only [Nat.zero_add] at hind
        rw [this] at hind
        exact absurd hind (by simp)
    simp [login_handler, hw]

/-- C3 witness: an indicator that flips to true at tick 2 with deadline 5
saves exactly once, and an indicator that never flips saves nothing and times
out. -/
theorem c3_witness :
    ((login_handler (fun t => decide (t = 2)) 5 "ck" "blob").1 = Except.ok "logged_in" ∧
     (login_handler (fun t => decide (t = 2)) 5 "ck" "blob").2 = [HEv.save "ck" "blob"]) ∧
    ((login_handler (fun _ => false) 5 "ck" "blob").1 =
        Except.error (PyErr.runtimeErr "Login timed out.") ∧
     (login_handler (fun _ => false) 5 "ck" "blob").2 = []) :=
  ⟨(c3_login_save_exactly_once (fun t => decide (t = 2)) 5 "ck" "blob").1
      ⟨2, by decide, by decide⟩,
   (c3_login_save_exactly_once (fun _ => false) 5 "ck" "blob").2
      (fun _ _ => rfl)⟩

/-- C10: calling the `publish_image` operation with an empty `image_paths`
list fails with the `ValueError` from the precondition check, with an empty
event list: no browser, context or page is acquired, the handler never runs,
and no filesystem write happens. -/
theorem c10_empty_image_paths (cfg : Cfg) (env : Env) (ho : Except PyErr String) :
    publish_image [] cfg env ho =
      (Except.error (PyErr.valueErr "image_paths must contain at least one file"),
        ([] : List Ev)) := rfl

/-- Status of one selector on the current page: absent (matches zero
elements) or present, with the time in milliseconds at which the first match
reaches the required state (`none` when it never does). -/
inductive SelStatus where
  | absent
  | present (reach : Option Nat)
  deriving DecidableEq

/-- Abstraction of the live page seen by the locators: per-selector status
and the current document text (`page.content()`). -/
structure PageModel where
  sel : String → SelStatus
  docText : String

/-- Locator-side observable calls: a `page.locator(s).count()` probe, and a
`wait_for` with the given per-candidate timeout. -/
inductive LEv where
  | query (s : String)
  | wait (s : String) (timeout : Nat)
  deriving DecidableEq

/-- Errors raised by the locators: the playwright `TimeoutError` of a
`wait_for` on a selector, or a bare `TimeoutError(msg)`. -/
inductive LocErr where
  | waitTimeout (s : String) (timeout : Nat)
  | timeoutMsg (msg : String)
  deriving DecidableEq

/-- Whether a first match in this status reaches the required state within
`timeout` milliseconds. -/
def reachOk : SelStatus → Nat → Bool
  | .absent, _ => false
  | .present none, _ => false
  | .present (some t), timeout => decide (t ≤ timeout)

/-- The candidate currently matches at least one element. -/
def isPresent (page : PageModel) (s : String) : Bool :=
  match page.sel s with
  | .absent => false
  | .present _ => true

/-- The candidate wins: it matches an element and that element reaches the
required state within the candidate timeout. -/
def candSucceeds (page : PageModel) (timeout : Nat) (s : String) : Bool :=
  reachOk (page.sel s) timeout

/-- One pass of the candidate loop shared by `_locate_editor` and
`_locate_submit` (comment.py lines 33-41 and 53-61): for each selector in
order, probe the match count; zero matches means skip with no wait; otherwise
wait up to `timeout`, returning the selector on success and recording the
timeout error otherwise.  Returns (winner, last timed-out selector, events). -/
def scan (page : PageModel) (timeout : Nat) :
    List String → Option String × Option String × List LEv
  | [] => (none, none, [])
  | s :: rest =>
    match page.sel s with
    | .absent =>
      let r := scan page timeout rest
      (r.1, r.2.1, LEv.query s :: r.2.2)
    | .present reach =>
      if reachOk (.present reach) timeout then
        (some s, none, [LEv.query s, LEv.wait s timeout])
      else
        let r := scan page timeout rest
        (r.1, some (r.2.1.getD s), LEv.query s :: LEv.wait s timeout :: r.2.2)

/-- The candidate selector list of `_locate_editor` (comment.py lines 26-31). -/
def editorSelectors : List String :=
  ["div.input-box div.content-edit p.content-input",
   "div.input-box div.content-edit span",
   "textarea",
   "div[contenteditable=\x27true\x27]"]

/-- The candidate selector list of `_locate_submit` (comment.py lines 48-52). -/
def submitCandidates : List String :=
  ["div.bottom button.submit",
   "button:has-text(\x27发送\x27)",
   "button:has-text(\x27评论\x27)"]

/-- Shallow embedding of `_locate_editor` (comment.py lines 25-45): run the
candidate loop with a 30s per-candidate timeout; on exhaustion re-raise the
last recorded timeout error, or a bare "Comment editor not found" timeout
error when no candidate was ever waited on.  No further selector is tried. -/
def locate_editor (page : PageModel) : Except LocErr String × List LEv :=
  let r := scan page 30000 editorSelectors
  match r.1 with
  | some s => (.ok s, r.2.2)
  | none =>
    match r.2.1 with
    | some s => (.error (.waitTimeout s 30000), r.2.2)
    | none => (.error (.timeoutMsg "Comment editor not found"), r.2.2)

/-- Shallow embedding of `_locate_submit` (comment.py lines 47-66): run the
candidate loop with a 10s per-candidate timeout; on exhaustion probe the
generic fallback selector "button" — absent means a bare timeout error,
present means one final 5s wait for attachment. -/
def locate_submit (page : PageModel) : Except LocErr String × List LEv :=
  let r := scan page 10000 submitCandidates
  match r.1 with
  | some s => (.ok s, r.2.2)
  | none =>
    match page.sel "button" with
    | .absent =>
      (.error (.timeoutMsg "Comment submit button not found"),
        r.2.2 ++ [LEv.query "button"])
    | .present reach =>
      if reachOk (.present reach) 5000 then
        (.ok "button", r.2.2 ++ [LEv.query "button", LEv.wait "button" 5000])
      else
        (.error (.waitTimeout "button" 5000),
          r.2.2 ++ [LEv.query "button", LEv.wait "button" 5000])

theorem scan_fst (page : PageModel) (timeout : Nat) (cands : List String) :
    (scan page timeout cands).1 = cands.find? (candSucceeds page timeout) := by
  induction cands with
  | nil => rfl
  | cons s rest ih =>
    cases hps : page.sel s with
    | absent =>
      have hfail : candSucceeds page timeout s = false := by
        simp [candSucceeds, hps, reachOk]
      simp [scan, hps, List.find?, hfail, ih]
    | present reach =>
      cases hro : reachOk (.present reach) timeout with
      | true =>
        have hsucc : candSucceeds page timeout s = true := by
          simp [candSucceeds, hps, hro]
        simp [scan, hps, hro, List.find?, hsucc]
      | false =>
        have hfail : candSucceeds page timeout s = false := by
          simp [candSucceeds, hps, hro]
        simp [scan, hps, hro, List.find?, hfail, ih]

theorem scan_wait_present (page : PageModel) (timeout : Nat) (cands : List String)
    (s : String) (t : Nat) :
    LEv.wait s t ∈ (scan page timeout cands).2.2 → isPresent page s = true := by
  induction cands with
  | nil => intro h; simp [scan] at h
  | cons c rest ih =>
    intro h
    cases hps : page.sel c with
    | absent =>
      simp [scan, hps] at h
      exact ih h
    | present reach =>
      cases hro : reachOk (.present reach) timeout with
      | true =>
        simp [scan, hps, hro] at h
        obtain ⟨rfl, rfl⟩ := h
        simp [isPresent, hps]
      | false =>
        simp [scan, hps, hro] at h
        rcases h with ⟨rfl, rfl⟩ | h
        · simp [isPresent, hps]
        · exact ih h

theorem scan_query_mem (page : PageModel) (timeout : Nat) (cands : List String)
    (q : String) :
    LEv.query q ∈ (scan page timeout cands).2.2 → q ∈ cands := by
  induction cands with
  | nil => intro h; simp [scan] at h
  | cons c rest ih =>
    intro h
    cases hps : page.sel c with
    | absent =>
      simp [scan, hps] at h
      rcases h with rfl | h
      · exact List.mem_cons_self _ _
      · exact List.mem_cons_of_mem _ (ih h)
    | present reach =>
      cases hro : reachOk (.present reach) timeout with
      | true =>
        simp [scan, hps, hro] at h
        subst h
        exact List.mem_cons_self _ _
      | false =>
        simp [scan, hps, hro] at h
        rcases h with rfl | h
        · exact List.mem_cons_self _ _
        · exact List.mem_cons_of_mem _ (ih h)

theorem locate_editor_evs (page : PageModel) :
    (locate_editor page).2 = (scan page 30000 editorSelectors).2.2 := by
  rcases h1 : (scan page 30000 editorSelectors).1 with _ | w
  · rcases h2 : (scan page 30000 editorSelectors).2.1 with _ | s
    · simp [locate_editor, h1, h2]
    · simp [locate_editor, h1, h2]
  · simp [locate_editor, h1]

/-- C4: the candidate loop returns the first candidate in list order that
matches an element and reaches the required state within the per-candidate
timeout — an earlier candidate timing out or being absent does not prevent
later candidates from being tried — and both `_locate_editor` and
`_locate_submit` return that first winning candidate. -/
theorem c4_first_success_wins (page : PageModel) (timeout : Nat) (cands : List String) :
    (scan page timeout cands).1 = cands.find? (candSucceeds page timeout) ∧
    (∀ s, editorSelectors.find? (candSucceeds page 30000) = some s →
      (locate_editor page).1 = Except.ok s) ∧
    (∀ s, submitCandidates.find? (candSucceeds page 10000) = some s →
      (locate_submit page).1 = Except.ok s) := by
  refine ⟨scan_fst page timeout cands, ?_, ?_⟩
  · intro s hs
    have h1 : (scan page 30000 editorSelectors).1 = some s := by
      rw [scan_fst]; exact hs
    simp [locate_editor, h1]
  · intro s hs
    have h1 : (scan page 10000 submitCandidates).1 = some s := by
      rw [scan_fst]; exact hs
    simp [locate_submit, h1]

/-- Page on which the first editor candidate is absent, the second is present
but never visible, and "textarea" becomes visible after 2 seconds. -/
def pageC4 : PageModel :=
  ⟨fun s =>
    if s == "textarea" then SelStatus.present (some 2000)
    else if s == "div.input-box div.content-edit span" then SelStatus.present none
    else SelStatus.absent, "doc"⟩

/-- C4 witness: on `pageC4` the editor locator returns "textarea", the first
candidate in order that reaches the visible state within its timeout. -/
theorem c4_witness : (locate_editor pageC4).1 = Except.ok "textarea" :=
  (c4_first_success_wins pageC4 30000 editorSelectors).2.1 "textarea" (by decide)

/-- C5: the locators never perform a timed wait on a candidate whose selector
currently matches zero elements — every `wait_for` event recorded by the
candidate loop, by `_locate_editor`, or by `_locate_submit` is on a selector
that matches at least one element. -/
theorem c5_no_wait_on_absent (page : PageModel) (timeout : Nat) (cands : List String)
    (s : String) (t : Nat) :
    (LEv.wait s t ∈ (scan page timeout cands).2.2 → isPresent page s = true) ∧
    (LEv.wait s t ∈ (locate_editor page).2 → isPresent page s = true) ∧
    (LEv.wait s t ∈ (locate_submit page).2 → isPresent page s = true) := by
  refine ⟨scan_wait_present page timeout cands s t, ?_, ?_⟩
  · intro h
    rw [locate_editor_evs] at h
    exact scan_wait_present page 30000 editorSelectors s t h
  · intro h
    rcases h1 : (scan page 10000 submitCandidates).1 with _ | w
    · rcases hb : page.sel "button" with _ | reach
      · simp [locate_submit, h1, hb] at h
        exact scan_wait_present page 10000 submitCandidates s t h
      · cases hro : reachOk (.present reach) 5000 with
        | true =>
          simp [locate_submit, h1, hb, hro] at h
          rcases h with h | ⟨rfl, rfl⟩
          · exact scan_wait_present page 10000 submitCandidates s t h
          · simp [isPresent, hb]
        | false =>
          simp [locate_submit, h1, hb, hro] at h
          rcases h with h | ⟨rfl, rfl⟩
          · exact scan_wait_present page 10000 submitCandidates s t h
          · simp [isPresent, hb]
    · simp [locate_submit, h1] at h
      exact scan_wait_present page 10000 submitCandidates s t h

/-- C5 witness: on `pageC4` the present "textarea" candidate is waited on,
and it indeed matches at least one element. -/
theorem c5_witness : isPresent pageC4 "textarea" = true :=
  (c5_no_wait_on_absent pageC4 30000 editorSelectors "textarea" 30000).2.1 (by decide)

/-- Formalisation of the C6 claim for one locator: whenever the locator
fails, it has probed at least one selector outside its caller-supplied
candidate list (the final generic fallback) before giving up. -/
def appliesFinalFallback (run : PageModel → Except LocErr String × List LEv)
    (cands : List String) : Prop :=
  ∀ page, (run page).1.isOk = false →
    ∃ q, LEv.query q ∈ (run page).2 ∧ q ∉ cands

/-- Page on which every selector matches zero elements. -/
def pageAllAbsent : PageModel := ⟨fun _ => SelStatus.absent, ""⟩

/-- C6 counterexample: the editor locator applies no final generic fallback —
on a page where every candidate is absent it fails having probed only its own
four candidates, refuting the claim that every element-location operation
tries one extra generic selector before failing. -/
theorem c6_counterexample : ¬ appliesFinalFallback locate_editor editorSelectors := by
  intro h
  obtain ⟨q, hq, hnot⟩ := h pageAllAbsent (by rfl)
  rw [locate_editor_evs] at hq
  exact hnot (scan_query_mem pageAllAbsent 30000 editorSelectors q hq)

/-- C6 (amended): only `_locate_submit` applies a final generic fallback
selector ("button", outside its candidate list) after its candidates are
exhausted; `_locate_editor` probes nothing beyond its own candidate list and
fails directly once the list is exhausted. -/
theorem c6_amended_fallback_only_submit :
    appliesFinalFallback locate_submit submitCandidates ∧
    (∀ page q, LEv.query q ∈ (locate_editor page).2 → q ∈ editorSelectors) := by
  constructor
  · intro page hfail
    rcases h1 : (scan page 10000 submitCandidates).1 with _ | w
    · rcases hb : page.sel "button" with _ | reach
      · exact ⟨"button", by simp [locate_submit, h1, hb], by decide⟩
      · cases hro : reachOk (.present reach) 5000 with
        | true => simp [locate_submit, h1, hb, hro, Except.isOk, Except.toBool] at hfail
        | false => exact ⟨"button", by simp [locate_submit, h1, hb, hro], by decide⟩
    · simp [locate_submit, h1, Except.isOk, Except.toBool] at hfail
  · intro page q hq
    rw [locate_editor_evs] at hq
    exact scan_query_mem page 30000 editorSelectors q hq

/-- C6 witness: on the all-absent page the failing submit locator did probe a
selector outside its candidate list, and every selector the editor locator
probes on `pageC4` belongs to its own candidate list. -/
theorem c6_witness :
    (∃ q, LEv.query q ∈ (locate_submit pageAllAbsent).2 ∧ q ∉ submitCandidates) ∧
    "textarea" ∈ editorSelectors :=
  ⟨c6_amended_fallback_only_submit.1 pageAllAbsent (by rfl),
   c6_amended_fallback_only_submit.2 pageC4 "textarea" (by decide)⟩

/-- Formalisation of the C7 claim: if the error raised on exhaustion carried
the page's current document text, then equal errors from two failing pages
would force equal document texts. -/
def errorDeterminesDocText : Prop :=
  ∀ p1 p2 : PageModel, (locate_editor p1).1.isOk = false →
    (locate_editor p2).1.isOk = false →
    (locate_editor p1).1 = (locate_editor p2).1 →
    p1.docText = p2.docText

/-- Page with no matching selectors and a different document text. -/
def pageAllAbsentOther : PageModel := ⟨fun _ => SelStatus.absent, "different document"⟩

/-- C7 counterexample: two all-absent pages with different document texts
make the editor locator fail with the very same error value, so the error
carries neither the document text nor anything page-specific beyond the last
timeout — refuting the claim that a typed ElementNotFound with candidate
list, last timeout and document text is raised. -/
theorem c7_counterexample : ¬ errorDeterminesDocText := by
  intro h
  have hcontra := h pageAllAbsent pageAllAbsentOther rfl rfl rfl
  exact absurd hcontra (by decide)

/-- The last candidate in the list that matches an element but fails to reach
the required state within the timeout; this is whose timeout error the editor
locator re-raises. -/
def lastPresentTimedOut (page : PageModel) (timeout : Nat) :
    List String → Option String
  | [] => none
  | s :: rest =>
    if isPresent page s && !candSucceeds page timeout s then
      some ((lastPresentTimedOut page timeout rest).getD s)
    else lastPresentTimedOut page timeout rest

theorem scan_snd (page : PageModel) (timeout : Nat) (cands : List String) :
    (scan page timeout cands).1 = none →
    (scan page timeout cands).2.1 = lastPresentTimedOut page timeout cands := by
  induction cands with
  | nil => intro _; rfl
  | cons s rest ih =>
    intro h1
    cases hps : page.sel s with
    | absent =>
      have h1' : (scan page timeout rest).1 = none := by
        simpa [scan, hps] using h1
      have hpres : isPresent page s = false := by simp [isPresent, hps]
      simp [scan, hps, lastPresentTimedOut, hpres, ih h1']
    | present reach =>
      cases hro : reachOk (.present reach) timeout with
      | true => simp [scan, hps, hro] at h1
      | false =>
        have h1' : (scan page timeout rest).1 = none := by
          simpa [scan, hps, hro] using h1
        have hpres : isPresent page s = true := by simp [isPresent, hps]
        have hcs : candSucceeds page timeout s = false := by
          simp [candSucceeds, hps, hro]
        simp [scan, hps, hro, lastPresentTimedOut, hpres, hcs, ih h1']

/-- C7 (amended): when every editor candidate is exhausted, `_locate_editor`
re-raises, unchanged, the timeout error of the last candidate that was
present but timed out, or a bare "Comment editor not found" timeout error
when no candidate was ever waited on; no error object carrying the candidate
list or the document text is constructed. -/
theorem c7_amended_error_shape (page : PageModel)
    (h : (scan page 30000 editorSelectors).1 = none) :
    (locate_editor page).1 =
      Except.error (match lastPresentTimedOut page 30000 editorSelectors with
        | some s => LocErr.waitTimeout s 30000
        | none => LocErr.timeoutMsg "Comment editor not found") := by
  have h2 := scan_snd page 30000 editorSelectors h
  rcases hl : lastPresentTimedOut page 30000 editorSelectors with _ | s
  · rw [hl] at h2
    simp [locate_editor, h, h2]
  · rw [hl] at h2
    simp [locate_editor, h, h2]

/-- Page where only "textarea" matches, and its element never becomes
visible. -/
def pageC7 : PageModel :=
  ⟨fun s => if s == "textarea" then SelStatus.present none else SelStatus.absent,
   "snapshot"⟩

/-- C7 witness: on `pageC7` every candidate is exhausted and the editor
locator fails with exactly the re-raised timeout error of "textarea", the
last present-but-timed-out candidate. -/
theorem c7_witness :
    (locate_editor pageC7).1 = Except.error (LocErr.waitTimeout "textarea" 30000) :=
  c7_amended_error_shape pageC7 (by rfl)

/-- JSON-like values of the result objects handled by clean_array.py; objects
are association lists of fields in insertion order, as Python dicts preserve
it. -/
inductive J where
  | str (s : String)
  | num (n : Int)
  | jbool (b : Bool)
  | null
  | arr (xs : List J)
  | obj (fields : List (String × J))

/-- Python TypeError raised by clean_xsec_tokens on ill-shaped items. -/
inductive PyTypeErr where
  | typeError (msg : String)
  deriving DecidableEq

/-- Field lookup in an object, first match. -/
def getField : List (String × J) → String → Option J
  | [], _ => none
  | (k, v) :: rest, key => if k == key then some v else getField rest key

/-- Field deletion, modelling `del d[key]` on a Python dict. -/
def removeField : List (String × J) → String → List (String × J)
  | [], _ => []
  | (k, v) :: rest, key =>
    if k == key then removeField rest key else (k, v) :: removeField rest key

/-- In-place update of an existing field's value, keeping its position. -/
def setField : List (String × J) → String → J → List (String × J)
  | [], _, _ => []
  | (k, v) :: rest, key, newV =>
    if k == key then (k, newV) :: setField rest key newV
    else (k, v) :: setField rest key newV

/-- Character list `hay` starts with character list `needle`. -/
def listStartsWith : List Char → List Char → Bool
  | _, [] => true
  | [], _ :: _ => false
  | h :: t, n :: nt => h == n && listStartsWith t nt

/-- Character list `needle` occurs contiguously somewhere inside `hay`. -/
def listContainsSeq : List Char → List Char → Bool
  | [], needle => needle.isEmpty
  | h :: t, needle => listStartsWith (h :: t) needle || listContainsSeq t needle

/-- Python substring test `needle in hay` on strings. -/
def strContains (hay needle : String) : Bool :=
  listContainsSeq hay.toList needle.toList

/-- Python membership test `key in xs` on a list: true when some element
equals the string `key` (equality with non-strings is False, never an
error). -/
def hasStrElem (xs : List J) (key : String) : Bool :=
  xs.any (fun e =>
    match e with
    | .str t => t == key
    | _ => false)

/-- Python values supporting `v[:10]` slicing among the modelled shapes:
strings and lists do; numbers, booleans, None and dicts raise TypeError. -/
def sliceable : J → Bool
  | .str _ => true
  | .arr _ => true
  | _ => false

/-- Top-level field of an item when it is an object. -/
def topField (j : J) (k : String) : Option J :=
  match j with
  | .obj fs => getField fs k
  | _ => none

/-- The item is tagged as the note kind. -/
def isNote (j : J) : Bool :=
  match topField j "modelType" with
  | some (.str m) => m == "note"
  | _ => false

/-- The nested duplicated token at `noteCard.user.xsecToken`, when the path
exists through objects. -/
def nestedUserToken (j : J) : Option J :=
  match topField j "noteCard" with
  | some nc =>
    match topField nc "user" with
    | some u => topField u "xsecToken"
    | none => none
  | none => none

/-- An item from which the sanitizer actually removes a nested token. -/
def removable (j : J) : Bool := isNote j && (nestedUserToken j).isSome

/-- Shallow embedding of the per-item body of `clean_xsec_tokens`
(clean_array.py lines 55-66), with Python dynamic-typing semantics intact.
For a dict item whose `modelType` equals "note": the membership test
`"user" in item["noteCard"]` is a key test on a dict, a substring test on a
str, an element-equality test on a list, and raises TypeError on a number,
boolean or None; when it succeeds on a str or list, the following subscript
`item["noteCard"]["user"]` raises TypeError.  The same applies to
`"xsecToken" in user` and `del user["xsecToken"]`.  On the removal path the
logging expression `item.get("id", "N/A")[:10]` raises TypeError when the
`id` value does not support slicing.  Every other item passes through
unchanged with count 0. -/
def cleanItemCount (item : J) : Except PyTypeErr (J × Nat) :=
  match item with
  | .obj fs =>
    match getField fs "modelType" with
    | some (.str mt) =>
      if mt == "note" then
        match getField fs "noteCard" with
        | none => .ok (item, 0)
        | some (.obj nc) =>
          match getField nc "user" with
          | none => .ok (item, 0)
          | some (.obj u) =>
            if (getField u "xsecToken").isSome then
              if sliceable ((getField fs "id").getD (J.str "N/A")) then
                .ok (J.obj (setField fs "noteCard" (J.obj (setField nc "user"
                  (J.obj (removeField u "xsecToken"))))), 1)
              else .error (.typeError "id value does not support slicing")
            else .ok (item, 0)
          | some (.str s) =>
            if strContains s "xsecToken" then
              .error (.typeError "str object does not support item deletion")
            else .ok (item, 0)
          | some (.arr ys) =>
            if hasStrElem ys "xsecToken" then
              .error (.typeError "list indices must be integers, not str")
            else .ok (item, 0)
          | some (.num _) => .error (.typeError "argument of type int is not iterable")
          | some (.jbool _) => .error (.typeError "argument of type bool is not iterable")
          | some .null => .error (.typeError "argument of type NoneType is not iterable")
        | some (.str s) =>
          if strContains s "user" then
            .error (.typeError "string indices must be integers, not str")
          else .ok (item, 0)
        | some (.arr xs) =>
          if hasStrElem xs "user" then
            .error (.typeError "list indices must be integers, not str")
          else .ok (item, 0)
        | some (.num _) => .error (.typeError "argument of type int is not iterable")
        | some (.jbool _) => .error (.typeError "argument of type bool is not iterable")
        | some .null => .error (.typeError "argument of type NoneType is not iterable")
      else .ok (item, 0)
    | some _ => .ok (item, 0)
    | none => .ok (item, 0)
  | _ => .ok (item, 0)

/-- The sequential item loop of `clean_xsec_tokens`: cleaned items and the
accumulated removal count, aborting at the first TypeError exactly as the
Python loop raises out of the function (the in-place mutation of earlier
items is then unobservable through the return value, which is what this
models). -/
def cleanList : List J → Except PyTypeErr (List J × Nat)
  | [] => .ok ([], 0)
  | i :: rest =>
    match cleanItemCount i with
    | .error e => .error e
    | .ok (j, c) =>
      match cleanList rest with
      | .error e => .error e
      | .ok (js, cs) => .ok (j :: js, c + cs)

/-- Shallow embedding of `clean_xsec_tokens` (clean_array.py lines 39-69): it
cleans each item of the array in place and returns the array itself, or
raises a TypeError on ill-shaped note items; the removal count is only
accumulated and printed. -/
def clean_xsec_tokens (l : List J) : Except PyTypeErr (List J) :=
  match cleanList l with
  | .error e => .error e
  | .ok (js, _) => .ok js

/-- The removal count `clean_xsec_tokens` accumulates (and prints, but does
not return), on the runs where it returns at all. -/
def cleanedCount (l : List J) : Except PyTypeErr Nat :=
  match cleanList l with
  | .error e => .error e
  | .ok (_, c) => .ok c

theorem getField_setField_ne (fs : List (String × J)) (k k' : String) (v : J)
    (h : k' ≠ k) : getField (setField fs k v) k' = getField fs k' := by
  induction fs with
  | nil => rfl
  | cons p rest ih =>
    obtain ⟨pk, pv⟩ := p
    by_cases hp : pk = k
    · subst hp
      have hne : (pk == k') = false := by
        simp [Ne.symm h]
      simp [setField, getField, hne, ih]
    · simp only [setField, getField]
      rw [if_neg (by simpa using hp)]
      by_cases hq : pk = k'
      · subst hq
        simp [getField]
      · simp [getField, hq, ih]

theorem getField_setField_self (fs : List (String × J)) (k : String) (v : J)
    (h : (getField fs k).isSome = true) :
    getField (setField fs k v) k = some v := by
  induction fs with
  | nil => simp [getField] at h
  | cons p rest ih =>
    obtain ⟨pk, pv⟩ := p
    by_cases hp : pk = k
    · subst hp
      simp [setField, getField]
    · have hne : (pk == k) = false := by simpa using hp
      simp only [setField, getField, hne, Bool.false_eq_true, if_false] at h ⊢
      exact ih h

theorem getField_removeField_self (fs : List (String × J)) (k : String) :
    getField (removeField fs k) k = none := by
  induction fs with
  | nil => rfl
  | cons p rest ih =>
    obtain ⟨pk, pv⟩ := p
    by_cases hp : pk = k
    · subst hp
      simp [removeField, ih]
    · simp [removeField, getField, hp, ih]

theorem clean_of_removable (fs nc u : List (String × J))
    (hmt : getField fs "modelType" = some (J.str "note"))
    (hnc : getField fs "noteCard" = some (J.obj nc))
    (hu : getField nc "user" = some (J.obj u))
    (htok : (getField u "xsecToken").isSome = true)
    (hid : sliceable ((getField fs "id").getD (J.str "N/A")) = true) :
    cleanItemCount (J.obj fs) =
      Except.ok (J.obj (setField fs "noteCard" (J.obj (setField nc "user"
        (J.obj (removeField u "xsecToken"))))), 1) := by
  simp [cleanItemCount, hmt, hnc, hu, htok, hid]

theorem clean_of_cleaned (fs nc u : List (String × J))
    (hmt : getField fs "modelType" = some (J.str "note"))
    (hnc : getField fs "noteCard" = some (J.obj nc))
    (hu : getField nc "user" = some (J.obj u)) :
    cleanItemCount (J.obj (setField fs "noteCard" (J.obj (setField nc "user"
        (J.obj (removeField u "xsecToken")))))) =
      Except.ok (J.obj (setField fs "noteCard" (J.obj (setField nc "user"
        (J.obj (removeField u "xsecToken"))))), 0) := by
  have hne : ("modelType" : String) ≠ "noteCard" := by decide
  have hmt2 : getField (setField fs "noteCard" (J.obj (setField nc "user"
      (J.obj (removeField u "xsecToken"))))) "modelType" = some (J.str "note") := by
    rw [getField_setField_ne _ _ _ _ hne]
    exact hmt
  have hnc2 : getField (setField fs "noteCard" (J.obj (setField nc "user"
      (J.obj (removeField u "xsecToken"))))) "noteCard" =
      some (J.obj (setField nc "user" (J.obj (removeField u "xsecToken")))) :=
    getField_setField_self _ _ _ (by simp [hnc])
  have hu2 : getField (setField nc "user" (J.obj (removeField u "xsecToken"))) "user" =
      some (J.obj (removeField u "xsecToken")) :=
    getField_setField_self _ _ _ (by simp [hu])
  have htok2 : (getField (removeField u "xsecToken") "xsecToken").isSome = false := by
    simp [getField_removeField_self]
  simp [cleanItemCount, hmt2, hnc2, hu2, htok2]

theorem nested_removed (fs nc u : List (String × J))
    (hnc : getField fs "noteCard" = some (J.obj nc))
    (hu : getField nc "user" = some (J.obj u)) :
    nestedUserToken (J.obj (setField fs "noteCard" (J.obj (setField nc "user"
      (J.obj (removeField u "xsecToken")))))) = none := by
  have hnc2 : getField (setField fs "noteCard" (J.obj (setField nc "user"
      (J.obj (removeField u "xsecToken"))))) "noteCard" =
      some (J.obj (setField nc "user" (J.obj (removeField u "xsecToken")))) :=
    getField_setField_self _ _ _ (by simp [hnc])
  have hu2 : getField (setField nc "user" (J.obj (removeField u "xsecToken"))) "user" =
      some (J.obj (removeField u "xsecToken")) :=
    getField_setField_self _ _ _ (by simp [hu])
  simp [nestedUserToken, topField, hnc2, hu2, getField_removeField_self]

theorem cleanItemCount_ok_elim (item j : J) (c : Nat)
    (h : cleanItemCount item = Except.ok (j, c)) :
    (j = item ∧ c = 0 ∧ removable item = false) ∨
    (∃ fs nc u, item = J.obj fs ∧
      getField fs "modelType" = some (J.str "note") ∧
      getField fs "noteCard" = some (J.obj nc) ∧
      getField nc "user" = some (J.obj u) ∧
      (getField u "xsecToken").isSome = true ∧
      sliceable ((getField fs "id").getD (J.str "N/A")) = true ∧
      j = J.obj (setField fs "noteCard" (J.obj (setField nc "user"
        (J.obj (removeField u "xsecToken"))))) ∧
      c = 1 ∧ removable item = true) := by
  cases item with
  | str s =>
    simp [cleanItemCount] at h
    exact Or.inl ⟨h.1.symm, h.2.symm, by simp [removable, isNote, topField]⟩
  | num n =>
    simp [cleanItemCount] at h
    exact Or.inl ⟨h.1.symm, h.2.symm, by simp [removable, isNote, topField]⟩
  | jbool b =>
    simp [cleanItemCount] at h
    exact Or.inl ⟨h.1.symm, h.2.symm, by simp [removable, isNote, topField]⟩
  | null =>
    simp [cleanItemCount] at h
    exact Or.inl ⟨h.1.symm, h.2.symm, by simp [removable, isNote, topField]⟩
  | arr xs =>
    simp [cleanItemCount] at h
    exact Or.inl ⟨h.1.symm, h.2.symm, by simp [removable, isNote, topField]⟩
  | obj fs =>
    cases hmt : getField fs "modelType" with
    | none =>
      simp [cleanItemCount, hmt] at h
      exact Or.inl ⟨h.1.symm, h.2.symm, by simp [removable, isNote, topField, hmt]⟩
    | some mv =>
      cases mv with
      | num n =>
        simp [cleanItemCount, hmt] at h
        exact Or.inl ⟨h.1.symm, h.2.symm, by simp [removable, isNote, topField, hmt]⟩
      | jbool b =>
        simp [cleanItemCount, hmt] at h
        exact Or.inl ⟨h.1.symm, h.2.symm, by simp [removable, isNote, topField, hmt]⟩
      | null =>
        simp [cleanItemCount, hmt] at h
        exact Or.inl ⟨h.1.symm, h.2.symm, by simp [removable, isNote, topField, hmt]⟩
      | arr ws =>
        simp [cleanItemCount, hmt] at h
        exact Or.inl ⟨h.1.symm, h.2.symm, by simp [removable, isNote, topField, hmt]⟩
      | obj o =>
        simp [cleanItemCount, hmt] at h
        exact Or.inl ⟨h.1.symm, h.2.symm, by simp [removable, isNote, topField, hmt]⟩
      | str mt =>
        by_cases hm : mt = "note"
        · subst hm
          cases hnc : getField fs "noteCard" with
          | none =>
            simp [cleanItemCount, hmt, hnc] at h
            exact Or.inl ⟨h.1.symm, h.2.symm,
              by simp [removable, isNote, nestedUserToken, topField, hmt, hnc]⟩
          | some ncv =>
            cases ncv with
            | num n => simp [cleanItemCount, hmt, hnc] at h
            | jbool b => simp [cleanItemCount, hmt, hnc] at h
            | null => simp [cleanItemCount, hmt, hnc] at h
            | str s =>
              cases hsc : strContains s "user" with
              | true => simp [cleanItemCount, hmt, hnc, hsc] at h
              | false =>
                simp [cleanItemCount, hmt, hnc, hsc] at h
                exact Or.inl ⟨h.1.symm, h.2.symm,
                  by simp [removable, isNote, nestedUserToken, topField, hmt, hnc]⟩
            | arr xs =>
              cases hel : hasStrElem xs "user" with
              | true => simp [cleanItemCount, hmt, hnc, hel] at h
              | false =>
                simp [cleanItemCount, hmt, hnc, hel] at h
                exact Or.inl ⟨h.1.symm, h.2.symm,
                  by simp [removable, isNote, nestedUserToken, topField, hmt, hnc]⟩
            | obj nc =>
              cases hu : getField nc "user" with
              | none =>
                simp [cleanItemCount, hmt, hnc, hu] at h
                exact Or.inl ⟨h.1.symm, h.2.symm,
                  by simp [removable, isNote, nestedUserToken, topField, hmt, hnc, hu]⟩
              | some uv =>
                cases uv with
                | num n => simp [cleanItemCount, hmt, hnc, hu] at h
                | jbool b => simp [cleanItemCount, hmt, hnc, hu] at h
                | null => simp [cleanItemCount, hmt, hnc, hu] at h
                | str s2 =>
                  cases hsc : strContains s2 "xsecToken" with
                  | true => simp [cleanItemCount, hmt, hnc, hu, hsc] at h
                  | false =>
                    simp [cleanItemCount, hmt, hnc, hu, hsc] at h
                    exact Or.inl ⟨h.1.symm, h.2.symm,
                      by simp [removable, isNote, nestedUserToken, topField, hmt, hnc, hu]⟩
                | arr ys =>
                  cases hel : hasStrElem ys "xsecToken" with
                  | true => simp [cleanItemCount, hmt, hnc, hu, hel] at h
                  | false =>
                    simp [cleanItemCount, hmt, hnc, hu, hel] at h
                    exact Or.inl ⟨h.1.symm, h.2.symm,
                      by simp [removable, isNote, nestedUserToken, topField, hmt, hnc, hu]⟩
                | obj u =>
                  cases htok : (getField u "xsecToken").isSome with
                  | false =>
                    simp [cleanItemCount, hmt, hnc, hu, htok] at h
                    refine Or.inl ⟨h.1.symm, h.2.symm, ?_⟩
                    have hnone : getField u "xsecToken" = none := by
                      cases hx : getField u "xsecToken" with
                      | none => rfl
                      | some v => rw [hx] at htok; simp at htok
                    simp [removable, isNote, nestedUserToken, topField,
                      hmt, hnc, hu, hnone]
                  | true =>
                    cases hid : sliceable ((getField fs "id").getD (J.str "N/A")) with
                    | false => simp [cleanItemCount, hmt, hnc, hu, htok, hid] at h
                    | true =>
                      simp [cleanItemCount, hmt, hnc, hu, htok, hid] at h
                      refine Or.inr ⟨fs, nc, u, rfl, hmt, hnc, hu, htok, hid,
                        h.1.symm, h.2.symm, ?_⟩
                      simp [removable, isNote, nestedUserToken, topField,
                        hmt, hnc, hu, htok]
        · have hbeq : (mt == "note") = false := by simpa using hm
          simp [cleanItemCount, hmt, hbeq] at h
          exact Or.inl ⟨h.1.symm, h.2.symm,
            by simp [removable, isNote, topField, hmt, hbeq]⟩

theorem cleanItemCount_idem (item j : J) (c : Nat)
    (h : cleanItemCount item = Except.ok (j, c)) :
    cleanItemCount j = Except.ok (j, 0) := by
  rcases cleanItemCount_ok_elim item j c h with ⟨rfl, rfl, _⟩ |
    ⟨fs, nc, u, rfl, hmt, hnc, hu, htok, hid, rfl, rfl, _⟩
  · exact h
  · exact clean_of_cleaned fs nc u hmt hnc hu

theorem cleanList_cons_elim (i : J) (rest js : List J) (cnt : Nat)
    (h : cleanList (i :: rest) = Except.ok (js, cnt)) :
    ∃ j ci js2 cr, cleanItemCount i = Except.ok (j, ci) ∧
      cleanList rest = Except.ok (js2, cr) ∧ js = j :: js2 ∧ cnt = ci + cr := by
  cases hi : cleanItemCount i with
  | error e => simp [cleanList, hi] at h
  | ok p =>
    obtain ⟨j, ci⟩ := p
    cases hr : cleanList rest with
    | error e => simp [cleanList, hi, hr] at h
    | ok q =>
      obtain ⟨js2, cr⟩ := q
      simp [cleanList, hi, hr] at h
      exact ⟨j, ci, js2, cr, rfl, rfl, h.1.symm, h.2.symm⟩

theorem cleanList_idem (l js : List J) (cnt : Nat)
    (h : cleanList l = Except.ok (js, cnt)) :
    cleanList js = Except.ok (js, 0) := by
  induction l generalizing js cnt with
  | nil =>
    simp [cleanList] at h
    rw [h.1]
    rfl
  | cons i rest ih =>
    obtain ⟨j, ci, js2, cr, hi, hr, rfl, rfl⟩ := cleanList_cons_elim i rest js cnt h
    have hj := cleanItemCount_idem i j ci hi
    have hjs := ih js2 cr hr
    simp [cleanList, hj, hjs]

theorem cleanList_count (l js : List J) (cnt : Nat)
    (h : cleanList l = Except.ok (js, cnt)) :
    cnt = (l.filter removable).length := by
  induction l generalizing js cnt with
  | nil =>
    simp [cleanList] at h
    simpa using h.2.symm
  | cons i rest ih =>
    obtain ⟨j, ci, js2, cr, hi, hr, rfl, rfl⟩ := cleanList_cons_elim i rest js cnt h
    have hcr := ih js2 cr hr
    rcases cleanItemCount_ok_elim i j ci hi with ⟨_, rfl, hremF⟩ |
      ⟨fs, nc, u, rfl, _, _, _, _, _, _, rfl, hremT⟩
    · simp [List.filter_cons, hremF, hcr]
    · simp [List.filter_cons, hremT, hcr]
      omega

/-- C9: the result sanitizer is idempotent — feeding the sanitizer's output
back into it yields the same outcome as one application: a returned array is
returned unchanged by the second run, and a raising input makes the composed
run raise identically. -/
theorem c9_idempotent (l : List J) :
    (clean_xsec_tokens l).bind clean_xsec_tokens = clean_xsec_tokens l := by
  cases hcl : cleanList l with
  | error e => simp [clean_xsec_tokens, hcl, Except.bind]
  | ok p =>
    obtain ⟨js, cnt⟩ := p
    have h2 := cleanList_idem l js cnt hcl
    simp [clean_xsec_tokens, hcl, h2, Except.bind]

/-- Note object carrying both the top-level token and the nested duplicate. -/
def noteA : J :=
  J.obj [("id", J.str "note001"),
         ("modelType", J.str "note"),
         ("xsecToken", J.str "top"),
         ("noteCard", J.obj [("user",
            J.obj [("nickName", J.str "u1"), ("xsecToken", J.str "dup")])])]

/-- The already-cleaned form of `noteA` (no nested duplicate left). -/
def noteB : J :=
  J.obj [("id", J.str "note001"),
         ("modelType", J.str "note"),
         ("xsecToken", J.str "top"),
         ("noteCard", J.obj [("user",
            J.obj [("nickName", J.str "u1")])])]

/-- C8 counterexample: `clean_xsec_tokens` does not return the count of
tokens removed — on `[noteA]` it removes one token and on `[noteB]` it
removes zero, yet it returns the very same value for both (the cleaned
array), so its return value cannot be, or even encode, the removal count;
the count is only printed. -/
theorem c8_counterexample :
    clean_xsec_tokens [noteA] = clean_xsec_tokens [noteB] ∧
    cleanedCount [noteA] = Except.ok 1 ∧ cleanedCount [noteB] = Except.ok 0 :=
  ⟨rfl, rfl, rfl⟩

/-- C8 (amended): on every input on which the sanitizer returns — it raises
TypeError when a note-kind object carries a non-container `noteCard` or
`noteCard.user` (number, boolean, None), when a str or list there passes its
membership probe and is then subscripted or deleted from, or when a removal
is logged for an object whose `id` does not support slicing — it removes the
nested `noteCard.user.xsecToken` only from note-kind objects, leaves every
non-note object and every top-level token unchanged, and returns the cleaned
array itself; the removal count, equal to the number of note objects carrying
the nested token, is only accumulated and printed, never returned. -/
theorem c8_amended_sanitizer_behavior :
    (∀ item : J, isNote item = false → cleanItemCount item = Except.ok (item, 0)) ∧
    (∀ item j : J, ∀ c : Nat, cleanItemCount item = Except.ok (j, c) →
      topField j "xsecToken" = topField item "xsecToken") ∧
    (∀ item j : J, ∀ c : Nat, isNote item = true →
      cleanItemCount item = Except.ok (j, c) → nestedUserToken j = none) ∧
    (∀ l js : List J, ∀ cnt : Nat, cleanList l = Except.ok (js, cnt) →
      clean_xsec_tokens l = Except.ok js ∧ cleanedCount l = Except.ok cnt ∧
      cnt = (l.filter removable).length) ∧
    (∀ fs : List (String × J), getField fs "modelType" = some (J.str "note") →
      getField fs "noteCard" = some J.null →
      cleanItemCount (J.obj fs) =
        Except.error (PyTypeErr.typeError "argument of type NoneType is not iterable")) := by
  refine ⟨?_, ?_, ?_, ?_, ?_⟩
  · intro item hNot
    cases item with
    | obj fs =>
      cases hmt : getField fs "modelType" with
      | none => simp [cleanItemCount, hmt]
      | some mv =>
        cases mv with
        | str mt =>
          have hbeq : (mt == "note") = false := by
            simpa [isNote, topField, hmt] using hNot
          simp [cleanItemCount, hmt, hbeq]
        | num n => simp [cleanItemCount, hmt]
        | jbool b => simp [cleanItemCount, hmt]
        | null => simp [cleanItemCount, hmt]
        | arr xs => simp [cleanItemCount, hmt]
        | obj o => simp [cleanItemCount, hmt]
    | str s => rfl
    | num n => rfl
    | jbool b => rfl
    | null => rfl
    | arr xs => rfl
  · intro item j c h
    rcases cleanItemCount_ok_elim item j c h with ⟨rfl, _, _⟩ |
      ⟨fs, nc, u, rfl, hmt, hnc, hu, htok, hid, rfl, rfl, _⟩
    · rfl
    · have hne : ("xsecToken" : String) ≠ "noteCard" := by decide
      simp [topField, getField_setField_ne _ _ _ _ hne]
  · intro item j c hnote h
    rcases cleanItemCount_ok_elim item j c h with ⟨rfl, _, hrem⟩ |
      ⟨fs, nc, u, rfl, hmt, hnc, hu, htok, hid, rfl, rfl, _⟩
    · have hsome : (nestedUserToken j).isSome = false := by
        simpa [removable, hnote] using hrem
      cases hn : nestedUserToken j with
      | none => rfl
      | some v => rw [hn] at hsome; simp at hsome
    · exact nested_removed fs nc u hnc hu
  · intro l js cnt h
    exact ⟨by simp [clean_xsec_tokens, h], by simp [cleanedCount, h],
      cleanList_count l js cnt h⟩
  · intro fs hmt hnc
    simp [cleanItemCount, hmt, hnc]

/-- Non-note object, passed through untouched by the sanitizer. -/
def recItem : J := J.obj [("id", J.str "rec001"), ("modelType", J.str "rec_query")]

/-- Note object whose noteCard is None: the sanitizer raises TypeError on it. -/
def noteBadCard : List (String × J) := [("modelType", J.str "note"), ("noteCard", J.null)]

/-- C8 witness: a non-note item is unchanged, the top-level token of `noteA`
is preserved and its nested duplicate removed, the one-note array returns the
cleaned array with internal count 1, and a note item with a None noteCard
makes the sanitizer raise TypeError. -/
theorem c8_witness :
    cleanItemCount recItem = Except.ok (recItem, 0) ∧
    topField noteB "xsecToken" = topField noteA "xsecToken" ∧
    nestedUserToken noteB = none ∧
    (clean_xsec_tokens [noteA] = Except.ok [noteB] ∧
      cleanedCount [noteA] = Except.ok 1 ∧
      1 = ([noteA].filter removable).length) ∧
    cleanItemCount (J.obj noteBadCard) =
      Except.error (PyTypeErr.typeError "argument of type NoneType is not iterable") :=
  ⟨c8_amended_sanitizer_behavior.1 recItem rfl,
   c8_amended_sanitizer_behavior.2.1 noteA noteB 1 rfl,
   c8_amended_sanitizer_behavior.2.2.1 noteA noteB 1 rfl rfl,
   c8_amended_sanitizer_behavior.2.2.2.1 [noteA] [noteB] 1 rfl,
   c8_amended_sanitizer_behavior.2.2.2.2 noteBadCard rfl rfl⟩
